import Mathlib

/-!
Verification of `src/vagueTime.js` (philbooth/vagueTime.js).

The module converts a precise timestamp (in whole seconds) to a vague
relative-time phrase such as "just now" or "3 weeks ago".  We embed the
JavaScript source shallowly:

* JavaScript numbers are modelled as mathematical integers (`Int` for the
  millisecond difference, which may be negative; `Nat` for the second-valued
  timestamps).  `Math.floor (a / b)` is `Int.fdiv` and the remainder
  operator `%` is `Int.tmod` (JavaScript's remainder truncates toward zero).
* The seconds-to-milliseconds conversion `timestamp + '000'` concatenates
  the decimal numeral of the number with three zero characters and lets
  `Date.prototype.setTime` coerce the resulting string back to a number;
  we model the numeral and the coercion explicitly on strings of decimal
  digit characters.
* The optional `referenceTimestamp` parameter is an `Option Nat`; the JS
  truthiness test `referenceTimestamp ? _ : _` treats both an omitted
  argument (`none`) and `0` as falsy.  The wall clock `Date.now()` is an
  explicit extra argument `dateNowMs`.
* The dispatch chain of `getVagueTime` over `times.difference` is factored
  into `vagueTimeFromDifference`, applied to the difference produced by
  `getTimes`; each branch is translated verbatim.
-/

namespace VagueTime

/-- `constants.year` (ms): 1000 ms * 60 s * 60 m * 24 h * 365.25 d. -/
def yearMs : Int := 31557600000

/-- `constants.month` (ms): 31557600000 ms / 12 m. -/
def monthMs : Int := 2629800000

/-- `constants.week` (ms): 1000 ms * 60 s * 60 m * 24 h * 7 d. -/
def weekMs : Int := 604800000

/-- `constants.day` (ms): 1000 ms * 60 s * 60 m * 24 h. -/
def dayMs : Int := 86400000

/-- `constants.hour` (ms): 1000 ms * 60 s * 60 m. -/
def hourMs : Int := 3600000

/-- `constants.minute` (ms): 1000 ms * 60 s. -/
def minuteMs : Int := 60000

/-- `pluraliseNoun (amount, noun)`: `noun + (amount > 1 ? 's' : '')`. -/
def pluraliseNoun (amount : Int) (noun : String) : String :=
  noun ++ (if amount > 1 then "s" else "")

/-- `getTimeDifferenceAsUnits (differenceInMs, unitInMs, unitName)`:
`units = Math.floor(differenceInMs / unitInMs)`, rendered as
`units + ' ' + pluraliseNoun(units, unitName) + ' ago'`. -/
def getTimeDifferenceAsUnits (differenceInMs unitInMs : Int) (unitName : String) : String :=
  let units := differenceInMs.fdiv unitInMs
  units.repr ++ " " ++ pluraliseNoun units unitName ++ " ago"

/-- `getTimeDifferenceAsMixedUnits`: first count is
`Math.floor(differenceInMs / firstUnitInMs)`, second count is
`Math.floor(differenceInMs % firstUnitInMs / secondUnitInMs)`. -/
def getTimeDifferenceAsMixedUnits (differenceInMs firstUnitInMs : Int) (firstUnitName : String)
    (secondUnitInMs : Int) (secondUnitName : String) : String :=
  let firstUnits := differenceInMs.fdiv firstUnitInMs
  let secondUnits := (differenceInMs.tmod firstUnitInMs).fdiv secondUnitInMs
  firstUnits.repr ++ " " ++ pluraliseNoun firstUnits firstUnitName ++ " and " ++
    secondUnits.repr ++ " " ++ pluraliseNoun secondUnits secondUnitName ++ " ago"

/-- `getTimeDifferenceAsYearsAndMonths`: years only when
`difference % constants.year === 0`, otherwise mixed years and months. -/
def getTimeDifferenceAsYearsAndMonths (difference : Int) : String :=
  if difference.tmod yearMs = 0 then
    getTimeDifferenceAsUnits difference yearMs "year"
  else
    getTimeDifferenceAsMixedUnits difference yearMs "year" monthMs "month"

/-- `getTimeDifferenceAsMonths`. -/
def getTimeDifferenceAsMonths (difference : Int) : String :=
  getTimeDifferenceAsUnits difference monthMs "month"

/-- `getTimeDifferenceAsWeeks`. -/
def getTimeDifferenceAsWeeks (difference : Int) : String :=
  getTimeDifferenceAsUnits difference weekMs "week"

/-- `getTimeDifferenceAsDays`. -/
def getTimeDifferenceAsDays (difference : Int) : String :=
  getTimeDifferenceAsUnits difference dayMs "day"

/-- `getTimeDifferenceAsHours`. -/
def getTimeDifferenceAsHours (difference : Int) : String :=
  getTimeDifferenceAsUnits difference hourMs "hour"

/-- `getTimeDifferenceAsMinutes`. -/
def getTimeDifferenceAsMinutes (difference : Int) : String :=
  getTimeDifferenceAsUnits difference minuteMs "minute"

/-- The decimal digit character for a digit value `d < 10`. -/
def decDigitChar (d : Nat) : Char := Char.ofNat (48 + d)

/-- Little-endian decimal digits of `n`, computed with explicit fuel so
that the definition is structurally recursive. -/
def toDecDigitsAux : Nat → Nat → List Nat
  | 0, _ => []
  | fuel + 1, n => if n = 0 then [] else n % 10 :: toDecDigitsAux fuel (n / 10)

/-- Little-endian decimal digits of `n` (empty for `0`). -/
def toDecDigits (n : Nat) : List Nat := toDecDigitsAux (n + 1) n

/-- JavaScript number-to-string coercion for a nonnegative integer: its
decimal numeral, most significant digit first (the digit list is little
endian, hence the `reverse`). -/
def natToDecString (n : Nat) : String :=
  if n = 0 then "0" else String.mk ((toDecDigits n).reverse.map decDigitChar)

/-- String-to-number coercion performed by `Date.prototype.setTime` on a
string of decimal digits. -/
def parseDecString (s : String) : Nat :=
  s.data.foldl (fun acc c => 10 * acc + (c.toNat - 48)) 0

/-- `getTime (timestamp)`: builds a `Date` holding the given millisecond
value; the payload of the `Date` is just that number, coerced from a digit
string by `setTime`. -/
def getTime (s : String) : Nat := parseDecString s

/-- `getTimes (timestamp, referenceTimestamp)`, returning the
`times.difference` field: `then` is `getTime(timestamp + '000')`, `now` is
`getTime(referenceTimestamp + '000')` when `referenceTimestamp` is truthy
and `Date.now()` (the `dateNowMs` argument) otherwise, and the difference
is `now - then`. -/
def getTimes (timestamp : Nat) (referenceTimestamp : Option Nat) (dateNowMs : Nat) : Int :=
  let thenMs := getTime (natToDecString timestamp ++ "000")
  let nowMs : Nat :=
    match referenceTimestamp with
    | some r => if r ≠ 0 then getTime (natToDecString r ++ "000") else dateNowMs
    | none => dateNowMs
  (nowMs : Int) - (thenMs : Int)

/-- The dispatch chain of `getVagueTime` on `times.difference`. -/
def vagueTimeFromDifference (difference : Int) : String :=
  if difference ≥ yearMs then getTimeDifferenceAsYearsAndMonths difference
  else if difference ≥ monthMs then getTimeDifferenceAsMonths difference
  else if difference ≥ weekMs then getTimeDifferenceAsWeeks difference
  else if difference ≥ dayMs then getTimeDifferenceAsDays difference
  else if difference ≥ hourMs then getTimeDifferenceAsHours difference
  else if difference ≥ minuteMs then getTimeDifferenceAsMinutes difference
  else "just now"

/-- `getVagueTime (timestamp, referenceTimestamp)`, the public
`vagueTime.get`, with the wall clock passed explicitly. -/
def getVagueTime (timestamp : Nat) (referenceTimestamp : Option Nat) (dateNowMs : Nat) : String :=
  vagueTimeFromDifference (getTimes timestamp referenceTimestamp dateNowMs)

/-! ### The decimal round trip performed by `getTimes` -/

theorem toDecDigitsAux_eq_digits (fuel : Nat) :
    ∀ n, n < fuel → toDecDigitsAux fuel n = Nat.digits 10 n := by
  induction fuel with
  | zero => intro n h; exact absurd h (Nat.not_lt_zero n)
  | succ fuel ih =>
    intro n h
    by_cases hn : n = 0
    · simp [toDecDigitsAux, hn]
    · have hdiv : n / 10 < n := Nat.div_lt_self (Nat.pos_of_ne_zero hn) (by norm_num)
      rw [toDecDigitsAux, if_neg hn,
        Nat.digits_def' (by norm_num : (1 : ℕ) < 10) (Nat.pos_of_ne_zero hn),
        ih (n / 10) (by omega)]

theorem toDecDigits_eq_digits (n : Nat) : toDecDigits n = Nat.digits 10 n :=
  toDecDigitsAux_eq_digits (n + 1) n (Nat.lt_succ_self n)

theorem toNat_decDigitChar {d : Nat} (hd : d < 10) : (decDigitChar d).toNat = 48 + d := by
  interval_cases d <;> decide

/-- Folding the parsing step over a big-endian rendering of a little-endian
digit list recovers the represented value. -/
theorem foldl_parse_rev_map (L : List Nat) (hL : ∀ d ∈ L, d < 10) :
    ∀ a : Nat,
      List.foldl (fun acc c => 10 * acc + (c.toNat - 48)) a (L.reverse.map decDigitChar)
        = a * 10 ^ L.length + Nat.ofDigits 10 L := by
  induction L with
  | nil => intro a; simp [Nat.ofDigits]
  | cons d L ih =>
    intro a
    have hd : d < 10 := hL d (List.mem_cons_self d L)
    have hL' : ∀ x ∈ L, x < 10 := fun x hx => hL x (List.mem_cons_of_mem d hx)
    rw [List.reverse_cons, List.map_append, List.foldl_append, ih hL' a]
    simp only [List.map_cons, List.map_nil, List.foldl_cons, List.foldl_nil,
      Nat.ofDigits_cons, List.length_cons, toNat_decDigitChar hd]
    have hsub : 48 + d - 48 = d := by omega
    rw [hsub]
    ring

theorem parse_natToDecString_append_zeros (n : Nat) :
    parseDecString (natToDecString n ++ "000") = 1000 * n := by
  by_cases hn : n = 0
  · subst hn; decide
  · unfold parseDecString natToDecString
    rw [if_neg hn, String.data_append]
    show List.foldl _ 0 ((toDecDigits n).reverse.map decDigitChar ++ "000".data) = _
    rw [List.foldl_append, toDecDigits_eq_digits,
      foldl_parse_rev_map _ (fun d hd => Nat.digits_lt_base (by norm_num) hd) 0,
      Nat.ofDigits_digits]
    show 10 * (10 * (10 * (0 * 10 ^ (Nat.digits 10 n).length + n) + _) + _) + _ = 1000 * n
    have h0 : '0'.toNat - 48 = 0 := rfl
    rw [h0]
    ring

theorem getTime_ms (n : Nat) : getTime (natToDecString n ++ "000") = 1000 * n :=
  parse_natToDecString_append_zeros n

theorem getTimes_some (t r now : Nat) (hr : r ≠ 0) :
    getTimes t (some r) now = ((r : Int) - (t : Int)) * 1000 := by
  unfold getTimes
  simp only [hr, ne_eq, not_false_iff, if_true, getTime_ms]
  push_cast
  ring

/-! ### Rendering of a single-unit phrase -/

theorem one_le_fdiv (d u : Int) (hu : 0 < u) (hd : u ≤ d) : 1 ≤ d.fdiv u := by
  rw [Int.fdiv_eq_ediv _ (le_of_lt hu)]
  exact (Int.le_ediv_iff_mul_le hu).mpr (by omega)

theorem units_render (d u : Int) (hu : 0 < u) (hd : u ≤ d) (name : String) :
    getTimeDifferenceAsUnits d u name
      = (d.fdiv u).repr ++ " " ++ name ++ (if d.fdiv u = 1 then "" else "s") ++ " ago" := by
  have hN := one_le_fdiv d u hu hd
  unfold getTimeDifferenceAsUnits pluraliseNoun
  by_cases h1 : d.fdiv u = 1
  · simp [h1]
  · have hlt : 1 < d.fdiv u := lt_of_le_of_ne hN (Ne.symm h1)
    simp [h1, hlt, String.append_assoc]

/-! ### Which branch of the dispatch chain fires on each range -/

theorem vagueTime_eq_years {d : Int} (h : (31557600000 : Int) ≤ d) :
    vagueTimeFromDifference d = getTimeDifferenceAsYearsAndMonths d := by
  simp only [vagueTimeFromDifference, yearMs, ge_iff_le]
  rw [if_pos h]

theorem vagueTime_eq_months {d : Int} (h1 : (2629800000 : Int) ≤ d)
    (h2 : d < 31557600000) :
    vagueTimeFromDifference d = getTimeDifferenceAsUnits d monthMs "month" := by
  simp only [vagueTimeFromDifference, yearMs, monthMs, ge_iff_le]
  rw [if_neg (by omega), if_pos (by omega)]
  rfl

theorem vagueTime_eq_weeks {d : Int} (h1 : (604800000 : Int) ≤ d)
    (h2 : d < 2629800000) :
    vagueTimeFromDifference d = getTimeDifferenceAsUnits d weekMs "week" := by
  simp only [vagueTimeFromDifference, yearMs, monthMs, weekMs, ge_iff_le]
  rw [if_neg (by omega), if_neg (by omega), if_pos (by omega)]
  rfl

theorem vagueTime_eq_days {d : Int} (h1 : (86400000 : Int) ≤ d)
    (h2 : d < 604800000) :
    vagueTimeFromDifference d = getTimeDifferenceAsUnits d dayMs "day" := by
  simp only [vagueTimeFromDifference, yearMs, monthMs, weekMs, dayMs, ge_iff_le]
  rw [if_neg (by omega), if_neg (by omega), if_neg (by omega), if_pos (by omega)]
  rfl

theorem vagueTime_eq_hours {d : Int} (h1 : (3600000 : Int) ≤ d)
    (h2 : d < 86400000) :
    vagueTimeFromDifference d = getTimeDifferenceAsUnits d hourMs "hour" := by
  simp only [vagueTimeFromDifference, yearMs, monthMs, weekMs, dayMs, hourMs, ge_iff_le]
  rw [if_neg (by omega), if_neg (by omega), if_neg (by omega), if_neg (by omega),
    if_pos (by omega)]
  rfl

theorem vagueTime_eq_minutes {d : Int} (h1 : (60000 : Int) ≤ d)
    (h2 : d < 3600000) :
    vagueTimeFromDifference d = getTimeDifferenceAsUnits d minuteMs "minute" := by
  simp only [vagueTimeFromDifference, yearMs, monthMs, weekMs, dayMs, hourMs, minuteMs,
    ge_iff_le]
  rw [if_neg (by omega), if_neg (by omega), if_neg (by omega), if_neg (by omega),
    if_neg (by omega), if_pos (by omega)]
  rfl

theorem vagueTime_eq_justNow {d : Int} (h : d < 60000) :
    vagueTimeFromDifference d = "just now" := by
  simp only [vagueTimeFromDifference, yearMs, monthMs, weekMs, dayMs, hourMs, minuteMs,
    ge_iff_le]
  rw [if_neg (by omega), if_neg (by omega), if_neg (by omega), if_neg (by omega),
    if_neg (by omega), if_neg (by omega)]

theorem mixed_render (d : Int) (h0 : 0 ≤ d) :
    getTimeDifferenceAsMixedUnits d yearMs "year" monthMs "month"
      = (d / 31557600000).repr ++ " " ++ "year"
          ++ (if 1 < d / 31557600000 then "s" else "") ++ " and "
          ++ ((d % 31557600000) / 2629800000).repr ++ " " ++ "month"
          ++ (if 1 < (d % 31557600000) / 2629800000 then "s" else "") ++ " ago" := by
  simp only [getTimeDifferenceAsMixedUnits, pluraliseNoun, yearMs, monthMs]
  have e1 : d.fdiv 31557600000 = d / 31557600000 := Int.fdiv_eq_ediv _ (by norm_num)
  have e2 : d.tmod 31557600000 = d % 31557600000 := Int.tmod_eq_emod h0 (by norm_num)
  have e3 : (d % 31557600000).fdiv 2629800000 = d % 31557600000 / 2629800000 :=
    Int.fdiv_eq_ediv _ (by norm_num)
  simp only [e1, e2, e3, String.append_assoc]

/-! ### The claims -/

/-- C1: for every millisecond difference `d` and every unit `u` in
{minute: 60000, hour: 3600000, day: 86400000, week: 604800000,
month: 2629800000}, if `d` lies in the half-open interval from `u` to the
next larger threshold, the result is `"<N> <unit> ago"` or
`"<N> <unit>s ago"` with `N = Math.floor (d / u)`, the unit noun singular
exactly when `N = 1`. -/
theorem unit_ranges_spec :
    (∀ d : Int, 60000 ≤ d → d < 3600000 →
      vagueTimeFromDifference d = (d.fdiv 60000).repr ++ " " ++ "minute"
        ++ (if d.fdiv 60000 = 1 then "" else "s") ++ " ago") ∧
    (∀ d : Int, 3600000 ≤ d → d < 86400000 →
      vagueTimeFromDifference d = (d.fdiv 3600000).repr ++ " " ++ "hour"
        ++ (if d.fdiv 3600000 = 1 then "" else "s") ++ " ago") ∧
    (∀ d : Int, 86400000 ≤ d → d < 604800000 →
      vagueTimeFromDifference d = (d.fdiv 86400000).repr ++ " " ++ "day"
        ++ (if d.fdiv 86400000 = 1 then "" else "s") ++ " ago") ∧
    (∀ d : Int, 604800000 ≤ d → d < 2629800000 →
      vagueTimeFromDifference d = (d.fdiv 604800000).repr ++ " " ++ "week"
        ++ (if d.fdiv 604800000 = 1 then "" else "s") ++ " ago") ∧
    (∀ d : Int, 2629800000 ≤ d → d < 31557600000 →
      vagueTimeFromDifference d = (d.fdiv 2629800000).repr ++ " " ++ "month"
        ++ (if d.fdiv 2629800000 = 1 then "" else "s") ++ " ago") := by
  refine ⟨?_, ?_, ?_, ?_, ?_⟩ <;> intro d h1 h2
  · rw [vagueTime_eq_minutes h1 h2]
    exact units_render d minuteMs (by norm_num [minuteMs]) h1 "minute"
  · rw [vagueTime_eq_hours h1 h2]
    exact units_render d hourMs (by norm_num [hourMs]) h1 "hour"
  · rw [vagueTime_eq_days h1 h2]
    exact units_render d dayMs (by norm_num [dayMs]) h1 "day"
  · rw [vagueTime_eq_weeks h1 h2]
    exact units_render d weekMs (by norm_num [weekMs]) h1 "week"
  · rw [vagueTime_eq_months h1 h2]
    exact units_render d monthMs (by norm_num [monthMs]) h1 "month"

/-- Witness for C1: each of the five unit ranges evaluated at a concrete
difference. -/
theorem unit_ranges_spec_witness :
    vagueTimeFromDifference 120000 = "2 minutes ago" ∧
    vagueTimeFromDifference 7200000 = "2 hours ago" ∧
    vagueTimeFromDifference 172800000 = "2 days ago" ∧
    vagueTimeFromDifference 1209600000 = "2 weeks ago" ∧
    vagueTimeFromDifference 5259600000 = "2 months ago" :=
  ⟨(unit_ranges_spec.1 120000 (by decide) (by decide)).trans (by decide),
   (unit_ranges_spec.2.1 7200000 (by decide) (by decide)).trans (by decide),
   (unit_ranges_spec.2.2.1 172800000 (by decide) (by decide)).trans (by decide),
   (unit_ranges_spec.2.2.2.1 1209600000 (by decide) (by decide)).trans (by decide),
   (unit_ranges_spec.2.2.2.2 5259600000 (by decide) (by decide)).trans (by decide)⟩

/-- C2: for every millisecond difference `d` with `d ≥` one year that is not
an exact integer multiple of the year constant, the result is
`"<Y> year[s] and <M> month[s] ago"` with `Y = floor (d / year)` and
`M = floor ((d mod year) / month)`, each noun pluralised per the `N > 1`
rule. -/
theorem mixed_years_months_spec (d : Int) (hge : (31557600000 : Int) ≤ d)
    (hndvd : ¬ (31557600000 : Int) ∣ d) :
    vagueTimeFromDifference d
      = (d / 31557600000).repr ++ " " ++ "year"
          ++ (if 1 < d / 31557600000 then "s" else "") ++ " and "
          ++ (d % 31557600000 / 2629800000).repr ++ " " ++ "month"
          ++ (if 1 < d % 31557600000 / 2629800000 then "s" else "") ++ " ago" := by
  have h0 : (0 : Int) ≤ d := by omega
  rw [vagueTime_eq_years hge]
  unfold getTimeDifferenceAsYearsAndMonths
  have hne : ¬ d.tmod yearMs = 0 := by
    rw [Int.tmod_eq_emod h0 (by norm_num [yearMs])]
    intro h
    exact hndvd (Int.dvd_of_emod_eq_zero h)
  rw [if_neg hne]
  exact mixed_render d h0

/-- Witness for C2: one year plus one month. -/
theorem mixed_years_months_spec_witness :
    vagueTimeFromDifference 34187400000 = "1 year and 1 month ago" :=
  (mixed_years_months_spec 34187400000 (by decide) (by decide)).trans (by decide)

/-- C3: for every difference that is an exact positive multiple `N` of the
year constant, the result is `"<N> year ago"` when `N = 1` and
`"<N> years ago"` when `N > 1`, with no month component. -/
theorem exact_years_spec (N : Int) (hN : 1 ≤ N) :
    vagueTimeFromDifference (N * 31557600000)
      = N.repr ++ " " ++ "year" ++ (if N = 1 then "" else "s") ++ " ago" := by
  have hge : (31557600000 : Int) ≤ N * 31557600000 := by omega
  have h0 : (0 : Int) ≤ N * 31557600000 := by omega
  rw [vagueTime_eq_years hge]
  unfold getTimeDifferenceAsYearsAndMonths
  have htmod : (N * 31557600000).tmod yearMs = 0 := by
    rw [Int.tmod_eq_emod h0 (by norm_num [yearMs])]
    simp [yearMs]
  rw [if_pos htmod,
    units_render (N * 31557600000) yearMs (by norm_num [yearMs]) hge "year"]
  have hdiv : (N * 31557600000).fdiv yearMs = N := by
    rw [Int.fdiv_eq_ediv _ (by norm_num [yearMs])]
    simp [yearMs]
  rw [hdiv]

/-- Witness for C3: exactly two years. -/
theorem exact_years_spec_witness :
    vagueTimeFromDifference (2 * 31557600000) = "2 years ago" :=
  (exact_years_spec 2 (by decide)).trans (by decide)

/-- C4: the unit noun receives the plural suffix `"s"` exactly when the
count exceeds 1; a count of exactly 0 — reachable as the month component of
a mixed phrase, e.g. one year plus 1 ms — renders with the singular noun. -/
theorem pluralise_spec :
    (∀ (N : Int) (noun : String),
      pluraliseNoun N noun = if 1 < N then noun ++ "s" else noun) ∧
    pluraliseNoun 0 "month" = "month" ∧
    vagueTimeFromDifference (31557600000 + 1) = "1 year and 0 month ago" := by
  refine ⟨fun N noun => ?_, by decide, by decide⟩
  unfold pluraliseNoun
  by_cases h : 1 < N
  · simp [h]
  · simp [h]

/-- C5: for every millisecond difference `d` with `0 ≤ d < 60000`, the
result is exactly `"just now"`. -/
theorem just_now_spec (d : Int) (h0 : 0 ≤ d) (hlt : d < 60000) :
    vagueTimeFromDifference d = "just now" :=
  vagueTime_eq_justNow hlt

/-- Witness for C5: a 30 second difference. -/
theorem just_now_spec_witness : vagueTimeFromDifference 30000 = "just now" :=
  just_now_spec 30000 (by decide) (by decide)

/-- C6: for integer-second inputs with a supplied non-zero reference, the
difference used for unit selection is `(referenceTimestamp - timestamp) *
1000`; the conversion by appending three zero digits to the decimal
numeral coincides with multiplication by 1000. -/
theorem seconds_to_ms_spec :
    (∀ n : Nat, parseDecString (natToDecString n ++ "000") = 1000 * n) ∧
    (∀ (t r now : Nat), r ≠ 0 →
      getTimes t (some r) now = ((r : Int) - (t : Int)) * 1000) :=
  ⟨parse_natToDecString_append_zeros, getTimes_some⟩

/-- Witness for C6: a concrete difference of 60 seconds. -/
theorem seconds_to_ms_spec_witness :
    getTimes 100 (some 160) 0 = ((160 : Int) - (100 : Int)) * 1000 :=
  seconds_to_ms_spec.2 100 160 0 (by decide)

/-- C7: the unit category changes exactly at each threshold, never before:
just below each threshold the next-smaller category (or `"just now"`) is
used, and at the threshold the category of the threshold is used. -/
theorem threshold_boundaries_spec :
    vagueTimeFromDifference 59999 = "just now" ∧
    vagueTimeFromDifference 60000 = "1 minute ago" ∧
    vagueTimeFromDifference 3599999 = "59 minutes ago" ∧
    vagueTimeFromDifference 3600000 = "1 hour ago" ∧
    vagueTimeFromDifference 86399999 = "23 hours ago" ∧
    vagueTimeFromDifference 86400000 = "1 day ago" ∧
    vagueTimeFromDifference 604799999 = "6 days ago" ∧
    vagueTimeFromDifference 604800000 = "1 week ago" ∧
    vagueTimeFromDifference 2629799999 = "4 weeks ago" ∧
    vagueTimeFromDifference 2629800000 = "1 month ago" ∧
    vagueTimeFromDifference 31557599999 = "11 months ago" ∧
    vagueTimeFromDifference 31557600000 = "1 year ago" := by
  decide

/-- C8: with a supplied non-zero reference timestamp the result does not
depend on the wall clock, hence two calls with identical arguments return
identical strings. -/
theorem deterministic_spec (t r now1 now2 : Nat) (hr : r ≠ 0) :
    getVagueTime t (some r) now1 = getVagueTime t (some r) now2 := by
  unfold getVagueTime
  rw [getTimes_some t r now1 hr, getTimes_some t r now2 hr]

/-- Witness for C8: same arguments under two different wall clocks. -/
theorem deterministic_spec_witness :
    getVagueTime 100 (some 3700) 0 = getVagueTime 100 (some 3700) 123456789 :=
  deterministic_spec 100 3700 0 123456789 (by decide)

theorem units_shape (d u : Int) (hu : 0 < u) (hd : u ≤ d) (name : String) :
    ∃ n : Int, 1 ≤ n ∧
      (∃ rest, getTimeDifferenceAsUnits d u name = n.repr ++ rest) ∧
      ∃ first, getTimeDifferenceAsUnits d u name = first ++ " ago" := by
  refine ⟨d.fdiv u, one_le_fdiv d u hu hd,
    ⟨" " ++ pluraliseNoun (d.fdiv u) name ++ " ago", ?_⟩,
    ⟨(d.fdiv u).repr ++ " " ++ pluraliseNoun (d.fdiv u) name, ?_⟩⟩ <;>
  · unfold getTimeDifferenceAsUnits
    simp only [String.append_assoc]

theorem mixed_shape (d : Int) (hd : yearMs ≤ d) :
    ∃ n : Int, 1 ≤ n ∧
      (∃ rest,
        getTimeDifferenceAsMixedUnits d yearMs "year" monthMs "month" = n.repr ++ rest) ∧
      ∃ first,
        getTimeDifferenceAsMixedUnits d yearMs "year" monthMs "month" = first ++ " ago" := by
  refine ⟨d.fdiv yearMs, one_le_fdiv d yearMs (by norm_num [yearMs]) hd,
    ⟨" " ++ pluraliseNoun (d.fdiv yearMs) "year" ++ " and "
      ++ ((d.tmod yearMs).fdiv monthMs).repr ++ " "
      ++ pluraliseNoun ((d.tmod yearMs).fdiv monthMs) "month" ++ " ago", ?_⟩,
    ⟨(d.fdiv yearMs).repr ++ " " ++ pluraliseNoun (d.fdiv yearMs) "year" ++ " and "
      ++ ((d.tmod yearMs).fdiv monthMs).repr ++ " "
      ++ pluraliseNoun ((d.tmod yearMs).fdiv monthMs) "month", ?_⟩⟩ <;>
  · unfold getTimeDifferenceAsMixedUnits
    simp only [String.append_assoc]

/-- C10: for every pair of integer-second inputs with a non-negative
difference (and a supplied non-zero reference), the result is either
exactly `"just now"`, or it begins with the decimal numeral of a positive
unit count and ends with the suffix `" ago"`. -/
theorem output_shape_spec (t r now : Nat) (hle : t ≤ r) (hr : r ≠ 0) :
    getVagueTime t (some r) now = "just now" ∨
      ∃ n : Int, 1 ≤ n ∧
        (∃ rest, getVagueTime t (some r) now = n.repr ++ rest) ∧
        ∃ first, getVagueTime t (some r) now = first ++ " ago" := by
  unfold getVagueTime
  rw [getTimes_some t r now hr]
  have h0 : (0 : Int) ≤ ((r : Int) - (t : Int)) * 1000 := by
    have : (t : Int) ≤ (r : Int) := by exact_mod_cast hle
    omega
  generalize ((r : Int) - (t : Int)) * 1000 = d at h0
  rcases lt_or_le d 60000 with h | h
  · exact Or.inl (vagueTime_eq_justNow h)
  right
  rcases lt_or_le d 3600000 with h2 | h2
  · rw [vagueTime_eq_minutes h h2]
    exact units_shape d minuteMs (by norm_num [minuteMs]) h "minute"
  rcases lt_or_le d 86400000 with h3 | h3
  · rw [vagueTime_eq_hours h2 h3]
    exact units_shape d hourMs (by norm_num [hourMs]) h2 "hour"
  rcases lt_or_le d 604800000 with h4 | h4
  · rw [vagueTime_eq_days h3 h4]
    exact units_shape d dayMs (by norm_num [dayMs]) h3 "day"
  rcases lt_or_le d 2629800000 with h5 | h5
  · rw [vagueTime_eq_weeks h4 h5]
    exact units_shape d weekMs (by norm_num [weekMs]) h4 "week"
  rcases lt_or_le d 31557600000 with h6 | h6
  · rw [vagueTime_eq_months h5 h6]
    exact units_shape d monthMs (by norm_num [monthMs]) h5 "month"
  rw [vagueTime_eq_years h6]
  unfold getTimeDifferenceAsYearsAndMonths
  by_cases hz : d.tmod yearMs = 0
  · rw [if_pos hz]
    exact units_shape d yearMs (by norm_num [yearMs]) h6 "year"
  · rw [if_neg hz]
    exact mixed_shape d h6

/-- Witness for C10: concrete inputs 100 and 200 seconds. -/
theorem output_shape_spec_witness :
    getVagueTime 100 (some 200) 0 = "just now" ∨
      ∃ n : Int, 1 ≤ n ∧
        (∃ rest, getVagueTime 100 (some 200) 0 = n.repr ++ rest) ∧
        ∃ first, getVagueTime 100 (some 200) 0 = first ++ " ago" :=
  output_shape_spec 100 200 0 (by decide) (by decide)

/-- C9: a supplied reference timestamp of 0 is treated like an omitted one,
because the code tests the argument for truthiness: `now` falls back to the
wall clock. -/
theorem zero_reference_spec (t now : Nat) :
    getVagueTime t (some 0) now = getVagueTime t none now ∧
    getTimes t (some 0) now = (now : Int) - (t : Int) * 1000 := by
  refine ⟨rfl, ?_⟩
  simp [getTimes, getTime_ms t]
  ring

end VagueTime
